import Mathlib

/-!
Verification of the grasp resolution pipeline of
`household_objects_database/nodes/objects_database_node.cpp`.

The embedding models the decision logic of `graspPlanningCB` and its
helpers (`HandDescription`, `pruneGraspList`, `multiplyPoses`) as pure
Lean functions.  External collaborators (the ROS parameter server, the
database connection and the tf transform listener) are modelled as
fields of an explicit environment record; numeric values are rationals.
-/

namespace ObjectsDatabaseNode

/-- A 3-vector (models `tf::Vector3` / the position part of
`geometry_msgs::Pose`). -/
structure Vec3 where
  x : ℚ
  y : ℚ
  z : ℚ
deriving DecidableEq, Repr

/-- A quaternion (models `tf::Quaternion` / the orientation part of
`geometry_msgs::Pose`). -/
structure Quat where
  x : ℚ
  y : ℚ
  z : ℚ
  w : ℚ
deriving DecidableEq, Repr

/-- A pose: position and orientation (models `geometry_msgs::Pose`). -/
structure Pose where
  position : Vec3
  orientation : Quat
deriving DecidableEq, Repr

def vecAdd (a b : Vec3) : Vec3 :=
  ⟨a.x + b.x, a.y + b.y, a.z + b.z⟩

/-- Hamilton product of two quaternions (the rotation composition
performed by `tf::Transform` multiplication on the rotation parts). -/
def quatMul (a b : Quat) : Quat :=
  { x := a.w * b.x + a.x * b.w + a.y * b.z - a.z * b.y
    y := a.w * b.y - a.x * b.z + a.y * b.w + a.z * b.x
    z := a.w * b.z + a.x * b.y - a.y * b.x + a.z * b.w
    w := a.w * b.w - a.x * b.x - a.y * b.y - a.z * b.z }

def quatConj (a : Quat) : Quat :=
  ⟨-a.x, -a.y, -a.z, a.w⟩

/-- Rotation of a vector by a (unit) quaternion, as performed by the
rotation part of `tf::Transform` acting on an origin vector. -/
def quatRotate (q : Quat) (v : Vec3) : Vec3 :=
  let r := quatMul (quatMul q ⟨v.x, v.y, v.z, 0⟩) (quatConj q)
  ⟨r.x, r.y, r.z⟩

/-- Models `multiplyPoses(p1, p2)` of the source: converts both poses to
`tf::Transform`, forms `t1 * t2` (so `p1` is the outer transform) and
converts back.  For transforms, `t1 * t2` has rotation `r1 * r2` and
origin `o1 + r1 * o2`. -/
def multiplyPoses (p1 p2 : Pose) : Pose :=
  { position := vecAdd p1.position (quatRotate p1.orientation p2.position)
    orientation := quatMul p1.orientation p2.orientation }

/-- A raw grasp record as read from the database (`DatabaseGrasp`):
quality, scaled quality, the two stored joint-angle vectors and the
final grasp pose in the model's local frame. -/
structure DatabaseGrasp where
  quality : ℚ
  scaled_quality : ℚ
  pre_grasp_joint_angles : List ℚ
  final_grasp_joint_angles : List ℚ
  final_grasp_pose : Pose
deriving DecidableEq, Repr

/-- A joint state as filled in by `graspPlanningCB` (the
`sensor_msgs/JointState`-like posture of `object_manipulation_msgs::Grasp`). -/
structure JointState where
  name : List String
  position : List ℚ
  effort : List ℚ
deriving DecidableEq, Repr

/-- The output grasp (`object_manipulation_msgs::Grasp` fields that
`graspPlanningCB` writes). -/
structure Grasp where
  pre_grasp_posture : JointState
  grasp_posture : JointState
  grasp_pose : Pose
  success_probability : ℚ
  desired_approach_distance : ℚ
  min_approach_distance : ℚ
deriving DecidableEq, Repr

/-- One entry of `request.target.potential_models`: a model id and the
detection pose with its source frame. -/
structure ModelPose where
  model_id : Int
  pose : Pose
  frame_id : String
deriving DecidableEq, Repr

/-- The grasp planning request (`GraspPlanning::Request`): the arm name,
the candidate models of the target, and the target's reference frame. -/
structure PlanningRequest where
  arm_name : String
  potential_models : List ModelPose
  reference_frame_id : String
deriving DecidableEq, Repr

/-- The external collaborators of the node: the ROS parameter server
(string and string-list parameters), the database connection, the tf
listener, and the two pruning parameters read at node construction. -/
structure RosEnv where
  stringParams : String → Option String
  vectorParams : String → Option (List String)
  databaseConnected : Bool
  getClusterRepGrasps : Int → String → Option (List DatabaseGrasp)
  lookupTransform : String → String → Option Pose
  prune_gripper_opening : ℚ
  prune_table_clearance : ℚ

/-- Models `HandDescription::getStringParam`: on a missing parameter it
logs an error and returns the default-constructed (empty) string. -/
def getStringParam (env : RosEnv) (name : String) : String :=
  match env.stringParams name with
  | some v => v
  | none => ""

/-- Models `HandDescription::getVectorParam`: when the parameter is
present as a string array it is returned; when it is absent, the two
`ROS_ERROR` calls only log, the `XmlRpcValue` stays `TypeInvalid`, and
the loop condition then calls `list.size()`, which throws an
`XmlRpcException` that nothing on the service-callback path catches.
The thrown exception is modelled as `none`. -/
def getVectorParam (env : RosEnv) (name : String) : Option (List String) :=
  env.vectorParams name

/-- Models `HandDescription::handDatabaseName`. -/
def handDatabaseName (env : RosEnv) (arm_name : String) : String :=
  getStringParam env ("/hand_description/" ++ arm_name ++ "/hand_database_name")

/-- Models `HandDescription::handJointNames`; `none` is the uncaught
`XmlRpcException` thrown when the parameter is absent. -/
def handJointNames (env : RosEnv) (arm_name : String) : Option (List String) :=
  getVectorParam env ("/hand_description/" ++ arm_name ++ "/hand_joints")

/-- Models `pruneGraspList`: walks the list with an erase/advance loop,
erasing every record whose `quality_` is `>= -40`; the two threshold
parameters are only mentioned in commented-out code. -/
def pruneGraspList : List DatabaseGrasp → ℚ → ℚ → List DatabaseGrasp
  | [], _, _ => []
  | g :: rest, gripper_threshold, table_clearance_threshold =>
    if g.quality ≥ -40 then
      pruneGraspList rest gripper_threshold table_clearance_threshold
    else
      g :: pruneGraspList rest gripper_threshold table_clearance_threshold

/-- Models `std::min(hi, std::max(v, lo))` as used for the Schunk joint
clamps. -/
def clampQ (lo hi v : ℚ) : ℚ :=
  min hi (max v lo)

/-- The raw-vector indices the Schunk branch reads for output positions
1..6 (raw indices 6, 7, 1, 2, 3, 4 in that order). -/
def schunkRemap : List Nat := [6, 7, 1, 2, 3, 4]

/-- The 7-element position vector the Schunk branch builds from one raw
joint-angle vector: index 0 clamped into `[0, 1.5707]`, then the
remapped indices clamped into `[-1.5707, 1.5707]`. -/
def schunkPositions (angles : List ℚ) : List ℚ :=
  clampQ 0 1.5707 (angles.getD 0 0) ::
    schunkRemap.map (fun i => clampQ (-1.5707) 1.5707 (angles.getD i 0))

/-- The three-way branch of `graspPlanningCB` that fills in the posture
position vectors: the `"Schunk"` branch, the default (direct-copy)
branch for any other hand that is not `"WILLOW_GRIPPER_2010"`, and the
PR2-gripper branch that replicates a single value.  Returns `none`
exactly when the branch hits a `continue` (record skipped). -/
def adaptPostures (hand_id : String) (joint_names : List String)
    (rec : DatabaseGrasp) : Option (List ℚ × List ℚ) :=
  if hand_id = "Schunk" then
    if joint_names.length ≠ 7 then none
    else if rec.final_grasp_joint_angles.length ≠ 8 then none
    else some (schunkPositions rec.pre_grasp_joint_angles,
               schunkPositions rec.final_grasp_joint_angles)
  else if hand_id ≠ "WILLOW_GRIPPER_2010" then
    if joint_names.length ≠ rec.final_grasp_joint_angles.length then none
    else some (rec.pre_grasp_joint_angles, rec.final_grasp_joint_angles)
  else
    if joint_names.length ≠ 4 ∨ rec.final_grasp_joint_angles.length ≠ 1 then none
    else some (List.replicate joint_names.length (rec.pre_grasp_joint_angles.getD 0 0),
               List.replicate joint_names.length (rec.final_grasp_joint_angles.getD 0 0))

/-- The common tail of the per-record loop body: joint names, the fixed
efforts (pre-grasp 100, final 50), the fixed approach distances
(0.15 and 0.07) and the scaled quality copied into
`success_probability`. -/
def buildGrasp (joint_names : List String) (prePos graspPos : List ℚ)
    (pose : Pose) (scaled_quality : ℚ) : Grasp :=
  { pre_grasp_posture :=
      { name := joint_names, position := prePos
        effort := List.replicate joint_names.length 100 }
    grasp_posture :=
      { name := joint_names, position := graspPos
        effort := List.replicate joint_names.length 50 }
    grasp_pose := pose
    success_probability := scaled_quality
    desired_approach_distance := 0.15
    min_approach_distance := 0.07 }

/-- The pose chain of the loop body: first
`multiplyPoses(detection pose, stored pose)`, then, only when the
detection's frame differs from the reference frame, a transform lookup
(from the reference frame to the detection frame at the latest time)
whose failure aborts the request, applied as the outer transform. -/
def composeGraspPose (lookup : String → String → Option Pose)
    (detPose : Pose) (detFrame refFrame : String) (localPose : Pose) :
    Option Pose :=
  if detFrame ≠ refFrame then
    match lookup refFrame detFrame with
    | none => none
    | some t => some (multiplyPoses t (multiplyPoses detPose localPose))
  else
    some (multiplyPoses detPose localPose)

/-- The distinct failure exits of `graspPlanningCB`.  Each corresponds to
one `return` site of the source; all of them set the wire error code to
`OTHER_ERROR` but log distinct diagnostics.  In the spec's taxonomy,
`noPotentialModels` is `InvalidRequest`, `databaseQueryError` is
`CatalogUnavailable` and `transformUnavailable` is
`TransformUnavailable`. -/
inductive FailureReason where
  | databaseNotConnected
  | noPotentialModels
  | databaseQueryError
  | transformUnavailable
deriving DecidableEq, Repr

/-- The outcome of one `graspPlanningCB` call.  `failure` carries the
grasps accumulated in the response before the failing `return` (the
source never clears `response.grasps`); `crashed` models the request
never completing: a `ROS_ASSERT` failure aborts the process, and an
uncaught `XmlRpcException` from the joint-name lookup propagates out of
the service callback, so neither produces a response. -/
inductive PlanningResult where
  | success (grasps : List Grasp)
  | failure (reason : FailureReason) (grasps : List Grasp)
  | crashed
deriving DecidableEq, Repr

/-- The per-record loop of `graspPlanningCB` over the pruned records,
accumulating into `response.grasps`: assert equal stored lengths, fetch
the joint names (an absent parameter throws and the request crashes),
adapt the postures (skipping the record on a shape mismatch), compose
the pose (aborting the request when the transform lookup fails), and
push the built grasp. -/
def processRecords (env : RosEnv) (req : PlanningRequest) (hand_id : String)
    (m0 : ModelPose) : List DatabaseGrasp → List Grasp → PlanningResult
  | [], acc => .success acc
  | rec :: rest, acc =>
    if rec.final_grasp_joint_angles.length ≠ rec.pre_grasp_joint_angles.length then
      .crashed
    else
      match handJointNames env req.arm_name with
      | none => .crashed
      | some joint_names =>
        match adaptPostures hand_id joint_names rec with
        | none => processRecords env req hand_id m0 rest acc
        | some (prePos, graspPos) =>
          match composeGraspPose env.lookupTransform m0.pose m0.frame_id
              req.reference_frame_id rec.final_grasp_pose with
          | none => .failure .transformUnavailable acc
          | some pose =>
            processRecords env req hand_id m0 rest
              (acc ++ [buildGrasp joint_names prePos graspPos pose rec.scaled_quality])

/-- Models `graspPlanningCB`: the database-connected check, the
empty-target check, the hand-id lookup, the database grasp fetch, the
prune, and the per-record loop. -/
def graspPlanningCB (env : RosEnv) (req : PlanningRequest) : PlanningResult :=
  if ¬ env.databaseConnected then .failure .databaseNotConnected []
  else
    match req.potential_models with
    | [] => .failure .noPotentialModels []
    | m0 :: _ =>
      match env.getClusterRepGrasps m0.model_id (handDatabaseName env req.arm_name) with
      | none => .failure .databaseQueryError []
      | some grasps =>
        processRecords env req (handDatabaseName env req.arm_name) m0
          (pruneGraspList grasps env.prune_gripper_opening env.prune_table_clearance) []

/-! Concrete fixtures used to evaluate the pipeline on closed inputs. -/

/-- The identity pose: zero position, unit quaternion. -/
def poseId : Pose := ⟨⟨0, 0, 0⟩, ⟨0, 0, 0, 1⟩⟩

/-- Four joint names, as the PR2 gripper branch expects. -/
def jointNames4 : List String := ["j1", "j2", "j3", "j4"]

/-- Seven joint names, as the Schunk branch expects. -/
def jointNames7 : List String := ["s1", "s2", "s3", "s4", "s5", "s6", "s7"]

/-- A raw record that survives the prune (quality below -40) and fits
the PR2 gripper branch (single-entry joint-angle vectors). -/
def recW : DatabaseGrasp :=
  { quality := -50, scaled_quality := 0.3
    pre_grasp_joint_angles := [0.5], final_grasp_joint_angles := [0.6]
    final_grasp_pose := poseId }

/-- A raw record that fits the Schunk branch: 8-entry vectors matching
the scenario of the spec (raw posture `[0,0,0,0,0,0,1.2,-2.0]`). -/
def recSchunk : DatabaseGrasp :=
  { quality := -50, scaled_quality := 0.3
    pre_grasp_joint_angles := [0, 0, 0, 0, 0, 0, 1.2, -2]
    final_grasp_joint_angles := [0, 0, 0, 0, 0, 0, 1.2, -2]
    final_grasp_pose := poseId }

/-- An environment in which `right_arm` is configured as the PR2 gripper
with four joints, the database holds `recW`, and no transform between
distinct frames is available. -/
def envOk : RosEnv :=
  { stringParams := fun n =>
      if n = "/hand_description/right_arm/hand_database_name" then
        some "WILLOW_GRIPPER_2010" else none
    vectorParams := fun n =>
      if n = "/hand_description/right_arm/hand_joints" then
        some jointNames4 else none
    databaseConnected := true
    getClusterRepGrasps := fun _ _ => some [recW]
    lookupTransform := fun _ _ => none
    prune_gripper_opening := 0.5
    prune_table_clearance := 0 }

/-- An environment in which both hand-description parameters are absent
from the parameter server. -/
def envMissing : RosEnv :=
  { stringParams := fun _ => none
    vectorParams := fun _ => none
    databaseConnected := true
    getClusterRepGrasps := fun _ _ => some [recW]
    lookupTransform := fun _ _ => none
    prune_gripper_opening := 0.5
    prune_table_clearance := 0 }

/-- An environment in which only the hand-database-name parameter is
absent while the joint-name parameter is present. -/
def envNoHandId : RosEnv :=
  { stringParams := fun _ => none
    vectorParams := fun n =>
      if n = "/hand_description/right_arm/hand_joints" then
        some jointNames4 else none
    databaseConnected := true
    getClusterRepGrasps := fun _ _ => some [recW]
    lookupTransform := fun _ _ => none
    prune_gripper_opening := 0.5
    prune_table_clearance := 0 }

/-- A request whose detection frame equals the reference frame. -/
def reqOk : PlanningRequest :=
  ⟨"right_arm", [⟨1, poseId, "base_link"⟩], "base_link"⟩

/-- A request with no candidate models at all. -/
def reqEmpty : PlanningRequest := ⟨"right_arm", [], "base_link"⟩

/-- A request whose detection frame differs from the reference frame. -/
def reqAbort : PlanningRequest :=
  ⟨"right_arm", [⟨1, poseId, "camera"⟩], "base_link"⟩

/-- The grasp `graspPlanningCB envOk reqOk` emits for `recW`. -/
def graspW : Grasp :=
  buildGrasp jointNames4 (List.replicate 4 0.5) (List.replicate 4 0.6)
    (multiplyPoses poseId poseId) 0.3

/-! Helper lemmas shared by the claim theorems. -/

/-- The erase/advance loop of `pruneGraspList` keeps exactly the records
with quality strictly below -40, in order. -/
theorem pruneGraspList_eq_filter (gs : List DatabaseGrasp) (gt tc : ℚ) :
    pruneGraspList gs gt tc = gs.filter (fun g => decide (g.quality < -40)) := by
  induction gs with
  | nil => rfl
  | cons g rest ih =>
    by_cases h : g.quality ≥ -40
    · simp [pruneGraspList, h, ih, List.filter_cons, not_lt.mpr h]
    · simp [pruneGraspList, h, ih, List.filter_cons, lt_of_not_ge h]

/-- Records surviving the prune are records of the input list. -/
theorem mem_of_mem_pruneGraspList {g : DatabaseGrasp} {gs : List DatabaseGrasp}
    {gt tc : ℚ} (h : g ∈ pruneGraspList gs gt tc) : g ∈ gs := by
  rw [pruneGraspList_eq_filter] at h
  exact List.mem_of_mem_filter h

/-- Every build of `schunkPositions` has exactly 7 entries. -/
theorem schunkPositions_length (l : List ℚ) : (schunkPositions l).length = 7 := by
  simp [schunkPositions, schunkRemap]

/-- Each posture-adaptation branch produces position vectors whose
length equals the joint-name count, given the asserted equality of the
two stored vectors' lengths. -/
theorem adaptPostures_lengths (hand_id : String) (jn : List String)
    (rec : DatabaseGrasp)
    (hlen : rec.final_grasp_joint_angles.length = rec.pre_grasp_joint_angles.length)
    {p q : List ℚ} (h : adaptPostures hand_id jn rec = some (p, q)) :
    p.length = jn.length ∧ q.length = jn.length := by
  by_cases hS : hand_id = "Schunk"
  · by_cases h7 : jn.length = 7
    · by_cases h8 : rec.final_grasp_joint_angles.length = 8
      · simp [adaptPostures, hS, h7, h8] at h
        obtain ⟨rfl, rfl⟩ := h
        rw [h7]
        exact ⟨schunkPositions_length _, schunkPositions_length _⟩
      · simp [adaptPostures, hS, h7, h8] at h
    · simp [adaptPostures, hS, h7] at h
  · by_cases hW : hand_id = "WILLOW_GRIPPER_2010"
    · by_cases h41 : jn.length = 4 ∧ rec.final_grasp_joint_angles.length = 1
      · simp [adaptPostures, hS, hW, h41.1, h41.2] at h
        obtain ⟨rfl, rfl⟩ := h
        simp [h41.1]
      · have hg : jn.length ≠ 4 ∨ rec.final_grasp_joint_angles.length ≠ 1 := by tauto
        simp [adaptPostures, hS, hW, hg] at h
    · by_cases hd : jn.length = rec.final_grasp_joint_angles.length
      · simp [adaptPostures, hS, hW, hd] at h
        obtain ⟨rfl, rfl⟩ := h
        exact ⟨by rw [hd, hlen], hd.symm⟩
      · simp [adaptPostures, hS, hW, hd] at h

/-- Every grasp of a successful loop run satisfies any property enjoyed
by the initial accumulator and preserved by `buildGrasp` (for whichever
joint-name list the parameter lookup returned). -/
theorem processRecords_success_inv (env : RosEnv) (req : PlanningRequest)
    (hand_id : String) (m0 : ModelPose) (P : Grasp → Prop)
    (hbuild : ∀ (jn : List String), handJointNames env req.arm_name = some jn →
      ∀ (rec : DatabaseGrasp) (pr gp : List ℚ) (pose : Pose),
      rec.final_grasp_joint_angles.length = rec.pre_grasp_joint_angles.length →
      adaptPostures hand_id jn rec = some (pr, gp) →
      P (buildGrasp jn pr gp pose rec.scaled_quality)) :
    ∀ (recs : List DatabaseGrasp) (acc gs : List Grasp),
      processRecords env req hand_id m0 recs acc = .success gs →
      (∀ g ∈ acc, P g) → ∀ g ∈ gs, P g := by
  intro recs
  induction recs with
  | nil =>
    intro acc gs h hacc
    simp only [processRecords, PlanningResult.success.injEq] at h
    exact h ▸ hacc
  | cons rec rest ih =>
    intro acc gs h hacc
    simp only [processRecords] at h
    split at h
    · simp at h
    · rename_i hne
      cases hjn : handJointNames env req.arm_name with
      | none => rw [hjn] at h; simp at h
      | some jn =>
        simp only [hjn] at h
        cases hadapt : adaptPostures hand_id jn rec with
        | none =>
          rw [hadapt] at h
          exact ih acc gs h hacc
        | some pr_gp =>
          obtain ⟨pr, gp⟩ := pr_gp
          rw [hadapt] at h
          cases hcomp : composeGraspPose env.lookupTransform m0.pose m0.frame_id
              req.reference_frame_id rec.final_grasp_pose with
          | none => rw [hcomp] at h; simp at h
          | some pose =>
            rw [hcomp] at h
            refine ih _ gs h ?_
            intro g hg
            rcases List.mem_append.mp hg with hg | hg
            · exact hacc g hg
            · rcases List.mem_singleton.mp hg with rfl
              exact hbuild jn hjn rec pr gp pose (not_ne_iff.mp hne) hadapt

/-- When the detection frame differs from the reference frame and the
transform is unavailable, the loop aborts at the first record that
adapts, with the accumulator unchanged. -/
theorem processRecords_transform_abort (env : RosEnv) (req : PlanningRequest)
    (hand_id : String) (m0 : ModelPose) (jn : List String)
    (hjn : handJointNames env req.arm_name = some jn)
    (hframe : m0.frame_id ≠ req.reference_frame_id)
    (hlook : env.lookupTransform req.reference_frame_id m0.frame_id = none) :
    ∀ (recs : List DatabaseGrasp) (acc : List Grasp),
      (∀ r ∈ recs, r.final_grasp_joint_angles.length = r.pre_grasp_joint_angles.length) →
      (∃ r ∈ recs, (adaptPostures hand_id jn r).isSome) →
      processRecords env req hand_id m0 recs acc = .failure .transformUnavailable acc := by
  intro recs
  induction recs with
  | nil =>
    intro acc _ hex
    simp at hex
  | cons rec rest ih =>
    intro acc hall hex
    have hne : ¬ rec.final_grasp_joint_angles.length ≠ rec.pre_grasp_joint_angles.length :=
      not_ne_iff.mpr (hall rec (List.mem_cons_self rec rest))
    have hcomp : composeGraspPose env.lookupTransform m0.pose m0.frame_id
        req.reference_frame_id rec.final_grasp_pose = none := by
      unfold composeGraspPose
      rw [if_pos hframe, hlook]
    simp only [processRecords, if_neg hne, hjn]
    cases hadapt : adaptPostures hand_id jn rec with
    | none =>
      have hex' : ∃ r ∈ rest, (adaptPostures hand_id jn r).isSome := by
        rcases hex with ⟨r, hr, hsome⟩
        rcases List.mem_cons.mp hr with rfl | hr
        · rw [hadapt] at hsome; simp at hsome
        · exact ⟨r, hr, hsome⟩
      exact ih acc (fun r hr => hall r (List.mem_cons_of_mem rec hr)) hex'
    | some pr_gp =>
      obtain ⟨pr, gp⟩ := pr_gp
      rw [hcomp]

/-- When every record is skipped by its adaptation branch, the loop
returns the accumulator as a success. -/
theorem processRecords_all_skipped (env : RosEnv) (req : PlanningRequest)
    (hand_id : String) (m0 : ModelPose) (jn : List String)
    (hjn : handJointNames env req.arm_name = some jn) :
    ∀ (recs : List DatabaseGrasp) (acc : List Grasp),
      (∀ r ∈ recs, r.final_grasp_joint_angles.length = r.pre_grasp_joint_angles.length) →
      (∀ r ∈ recs, adaptPostures hand_id jn r = none) →
      processRecords env req hand_id m0 recs acc = .success acc := by
  intro recs
  induction recs with
  | nil =>
    intro acc _ _
    rfl
  | cons rec rest ih =>
    intro acc hall hnone
    have hne : ¬ rec.final_grasp_joint_angles.length ≠ rec.pre_grasp_joint_angles.length :=
      not_ne_iff.mpr (hall rec (List.mem_cons_self rec rest))
    simp only [processRecords, if_neg hne, hjn, hnone rec (List.mem_cons_self rec rest)]
    exact ih acc (fun r hr => hall r (List.mem_cons_of_mem rec hr))
      (fun r hr => hnone r (List.mem_cons_of_mem rec hr))

/-- When the joint-name parameter is absent, the first loop iteration
never completes: either the assert fires or the lookup throws. -/
theorem processRecords_missing_joints_crashed (env : RosEnv) (req : PlanningRequest)
    (hand_id : String) (m0 : ModelPose)
    (hjn : handJointNames env req.arm_name = none)
    (rec : DatabaseGrasp) (rest : List DatabaseGrasp) (acc : List Grasp) :
    processRecords env req hand_id m0 (rec :: rest) acc = .crashed := by
  by_cases hne : rec.final_grasp_joint_angles.length ≠ rec.pre_grasp_joint_angles.length
  · simp only [processRecords, if_pos hne]
  · simp only [processRecords, if_neg hne, hjn]

/-- Reduction of `graspPlanningCB` to its per-record loop once the
database checks and the fetch succeed. -/
theorem graspPlanningCB_eq_loop (env : RosEnv) (req : PlanningRequest)
    (m0 : ModelPose) (ms : List ModelPose) (recs : List DatabaseGrasp)
    (hdb : env.databaseConnected = true)
    (hm : req.potential_models = m0 :: ms)
    (hf : env.getClusterRepGrasps m0.model_id (handDatabaseName env req.arm_name) = some recs) :
    graspPlanningCB env req =
      processRecords env req (handDatabaseName env req.arm_name) m0
        (pruneGraspList recs env.prune_gripper_opening env.prune_table_clearance) [] := by
  simp [graspPlanningCB, hdb, hm, hf]

/-- Every grasp of a successful `graspPlanningCB` response satisfies any
property preserved by `buildGrasp` for adapted records. -/
theorem graspPlanningCB_success_mem (env : RosEnv) (req : PlanningRequest)
    (gs : List Grasp) (P : Grasp → Prop)
    (hbuild : ∀ (jn : List String), handJointNames env req.arm_name = some jn →
      ∀ (rec : DatabaseGrasp) (pr gp : List ℚ) (pose : Pose),
      rec.final_grasp_joint_angles.length = rec.pre_grasp_joint_angles.length →
      adaptPostures (handDatabaseName env req.arm_name) jn rec = some (pr, gp) →
      P (buildGrasp jn pr gp pose rec.scaled_quality))
    (h : graspPlanningCB env req = .success gs) : ∀ g ∈ gs, P g := by
  unfold graspPlanningCB at h
  cases hdb : env.databaseConnected with
  | false => rw [hdb] at h; simp at h
  | true =>
    rw [hdb] at h
    rw [if_neg (by simp)] at h
    cases hm : req.potential_models with
    | nil => simp only [hm] at h; simp at h
    | cons m0 ms =>
      simp only [hm] at h
      cases hf : env.getClusterRepGrasps m0.model_id (handDatabaseName env req.arm_name) with
      | none => simp only [hf] at h; simp at h
      | some recs =>
        simp only [hf] at h
        exact processRecords_success_inv env req (handDatabaseName env req.arm_name) m0 P
          hbuild _ [] gs h (by simp)

/-! Claim theorems. -/

/-- C3: `pruneGraspList` removes exactly the records whose quality score
is at least -40 (the boundary value included), keeps every record whose
quality is strictly below -40, preserves the relative order of the
survivors (the output is a sublist of the input), and mutates no record
(every output record is a record of the input, unchanged). -/
theorem prune_removes_exactly_low_quality (gs : List DatabaseGrasp) (gt tc : ℚ) :
    (pruneGraspList gs gt tc).Sublist gs ∧
    (∀ g ∈ gs, -40 ≤ g.quality → g ∉ pruneGraspList gs gt tc) ∧
    (∀ g ∈ gs, g.quality < -40 → g ∈ pruneGraspList gs gt tc) ∧
    (∀ g ∈ pruneGraspList gs gt tc, g ∈ gs ∧ g.quality < -40) := by
  have hfil := pruneGraspList_eq_filter gs gt tc
  refine ⟨?_, ?_, ?_, ?_⟩
  · rw [hfil]
    exact List.filter_sublist gs
  · intro g hg hq hmem
    rw [hfil] at hmem
    have hlt := (List.mem_filter.mp hmem).2
    simp only [decide_eq_true_eq] at hlt
    exact absurd hq (not_le.mpr hlt)
  · intro g hg hq
    rw [hfil]
    exact List.mem_filter.mpr ⟨hg, by simpa using hq⟩
  · intro g hmem
    rw [hfil] at hmem
    have hm := List.mem_filter.mp hmem
    exact ⟨hm.1, by simpa using hm.2⟩

/-- C8: the output of `pruneGraspList` does not depend on the configured
gripper-opening and table-clearance threshold parameters; for any two
settings of the two parameters the filtered lists are identical. -/
theorem prune_ignores_threshold_params (gs : List DatabaseGrasp)
    (gt₁ tc₁ gt₂ tc₂ : ℚ) :
    pruneGraspList gs gt₁ tc₁ = pruneGraspList gs gt₂ tc₂ := by
  rw [pruneGraspList_eq_filter, pruneGraspList_eq_filter]

/-- C7: a request whose candidate model list is empty terminates
immediately with the empty-target failure (the spec's `InvalidRequest`)
and an empty grasp list, whatever the other request fields are. -/
theorem empty_candidates_invalid_request (env : RosEnv) (req : PlanningRequest)
    (hdb : env.databaseConnected = true)
    (hempty : req.potential_models = []) :
    graspPlanningCB env req = .failure .noPotentialModels [] := by
  simp [graspPlanningCB, hdb, hempty]

/-- C7 witness: the empty-candidate request is rejected in the concrete
environment. -/
theorem empty_candidates_invalid_request_case :
    graspPlanningCB envOk reqEmpty = .failure .noPotentialModels [] :=
  empty_candidates_invalid_request envOk reqEmpty rfl rfl

/-- C1: when the detection frame differs from the reference frame and
the transform lookup fails, the whole request fails with the
transform-unavailable failure (the spec's `TransformUnavailable`) and
the response carries zero grasps, provided at least one pruned record
passes its adaptation branch (so the lookup is actually reached). -/
theorem transform_failure_aborts_request (env : RosEnv) (req : PlanningRequest)
    (m0 : ModelPose) (ms : List ModelPose) (recs : List DatabaseGrasp)
    (jn : List String)
    (hdb : env.databaseConnected = true)
    (hm : req.potential_models = m0 :: ms)
    (hframe : m0.frame_id ≠ req.reference_frame_id)
    (hlook : env.lookupTransform req.reference_frame_id m0.frame_id = none)
    (hf : env.getClusterRepGrasps m0.model_id (handDatabaseName env req.arm_name) = some recs)
    (hjn : handJointNames env req.arm_name = some jn)
    (hall : ∀ r ∈ recs, r.final_grasp_joint_angles.length = r.pre_grasp_joint_angles.length)
    (hsome : ∃ r ∈ pruneGraspList recs env.prune_gripper_opening env.prune_table_clearance,
        (adaptPostures (handDatabaseName env req.arm_name) jn r).isSome) :
    graspPlanningCB env req = .failure .transformUnavailable [] := by
  rw [graspPlanningCB_eq_loop env req m0 ms recs hdb hm hf]
  exact processRecords_transform_abort env req (handDatabaseName env req.arm_name) m0
    jn hjn hframe hlook _ []
    (fun r hr => hall r (mem_of_mem_pruneGraspList hr)) hsome

/-- C1 witness: in the concrete environment with an unavailable
transform and one adaptable record, the request fails with zero
grasps. -/
theorem transform_failure_aborts_request_case :
    graspPlanningCB envOk reqAbort = .failure .transformUnavailable [] :=
  transform_failure_aborts_request envOk reqAbort ⟨1, poseId, "camera"⟩ [] [recW]
    jointNames4 rfl rfl (by decide) rfl rfl rfl (by with_unfolding_all decide)
    ⟨recW, by with_unfolding_all decide, by with_unfolding_all decide⟩

/-- C5: every grasp emitted in a successful response has a pre-grasp
position vector and a grasp position vector whose lengths both equal
the length of the hand profile's joint-name list. -/
theorem resolved_grasp_length_invariant (env : RosEnv) (req : PlanningRequest)
    (gs : List Grasp) (h : graspPlanningCB env req = .success gs) :
    ∀ g ∈ gs, ∃ jn, handJointNames env req.arm_name = some jn ∧
      g.pre_grasp_posture.position.length = jn.length ∧
      g.grasp_posture.position.length = jn.length := by
  refine graspPlanningCB_success_mem env req gs _ ?_ h
  intro jn hjn rec pr gp pose hlen hadapt
  have hl := adaptPostures_lengths _ _ _ hlen hadapt
  exact ⟨jn, hjn, by simpa [buildGrasp] using hl.1, by simpa [buildGrasp] using hl.2⟩

/-- C5 witness: the invariant at the concrete successful response. -/
theorem resolved_grasp_length_invariant_case :
    ∃ jn, handJointNames envOk reqOk.arm_name = some jn ∧
      graspW.pre_grasp_posture.position.length = jn.length ∧
      graspW.grasp_posture.position.length = jn.length :=
  resolved_grasp_length_invariant envOk reqOk [graspW] (by with_unfolding_all rfl)
    graspW (by simp)

/-- C10: every grasp emitted in a successful response carries the fixed
approach distances 0.15 (desired) and 0.07 (minimum), regardless of the
record, the hand profile or the request. -/
theorem approach_distances_fixed (env : RosEnv) (req : PlanningRequest)
    (gs : List Grasp) (h : graspPlanningCB env req = .success gs) :
    ∀ g ∈ gs,
      g.desired_approach_distance = 0.15 ∧ g.min_approach_distance = 0.07 := by
  refine graspPlanningCB_success_mem env req gs _ ?_ h
  intro jn _ rec pr gp pose _ _
  exact ⟨rfl, rfl⟩

/-- C10 witness: the fixed distances at the concrete successful
response. -/
theorem approach_distances_fixed_case :
    graspW.desired_approach_distance = 0.15 ∧ graspW.min_approach_distance = 0.07 :=
  approach_distances_fixed envOk reqOk [graspW] (by with_unfolding_all rfl)
    graspW (by simp)

/-- C2 counterexample: neither absent lookup surfaces a configuration
failure as the request outcome.  With the hand-database-name parameter
absent (joint names present) the hand id silently defaults to the
empty string and the request completes with a successful empty
response; with the joint-name parameter absent the first processed
record's lookup throws an uncaught `XmlRpcException` and the request
crashes without any outcome at all. -/
theorem hand_config_missing_no_structured_failure :
    envNoHandId.stringParams "/hand_description/right_arm/hand_database_name" = none ∧
    handDatabaseName envNoHandId "right_arm" = "" ∧
    graspPlanningCB envNoHandId reqOk = .success [] ∧
    envMissing.vectorParams "/hand_description/right_arm/hand_joints" = none ∧
    graspPlanningCB envMissing reqOk = .crashed :=
  ⟨rfl, rfl, by with_unfolding_all rfl, rfl, by with_unfolding_all rfl⟩

/-- C2 amended: an absent hand-database-name lookup is silently
defaulted to the empty string after logging; an absent joint-name-list
lookup makes `handJointNames` throw, so a request that reaches its
first pruned record crashes instead of completing; in neither case is a
configuration-missing failure surfaced to the caller as the request
outcome. -/
theorem hand_config_missing_behavior :
    (∀ (env : RosEnv) (arm : String),
      env.stringParams ("/hand_description/" ++ arm ++ "/hand_database_name") = none →
      handDatabaseName env arm = "") ∧
    (∀ (env : RosEnv) (arm : String),
      env.vectorParams ("/hand_description/" ++ arm ++ "/hand_joints") = none →
      handJointNames env arm = none) ∧
    (∀ (env : RosEnv) (req : PlanningRequest) (m0 : ModelPose) (ms : List ModelPose)
        (recs : List DatabaseGrasp) (r : DatabaseGrasp) (rs : List DatabaseGrasp),
      handJointNames env req.arm_name = none →
      env.databaseConnected = true →
      req.potential_models = m0 :: ms →
      env.getClusterRepGrasps m0.model_id (handDatabaseName env req.arm_name) = some recs →
      pruneGraspList recs env.prune_gripper_opening env.prune_table_clearance = r :: rs →
      graspPlanningCB env req = .crashed) := by
  refine ⟨?_, ?_, ?_⟩
  · intro env arm hs
    simp [handDatabaseName, getStringParam, hs]
  · intro env arm hv
    simp [handJointNames, getVectorParam, hv]
  · intro env req m0 ms recs r rs hjn hdb hm hf hpr
    rw [graspPlanningCB_eq_loop env req m0 ms recs hdb hm hf, hpr]
    exact processRecords_missing_joints_crashed env req _ m0 hjn r rs []

/-- C4: under the Schunk branch with 7 joint names and 8-entry raw
vectors, both output position vectors have 7 entries, entry 0 is the
raw entry 0 clamped into `[0, 1.5707]`, and entries 1..6 are the raw
entries 6, 7, 1, 2, 3, 4 clamped into `[-1.5707, 1.5707]`; and a record
whose adaptation branch fails is skipped alone, leaving the rest of the
batch to be processed. -/
theorem schunk_adapt_mapping (jn : List String) (rec : DatabaseGrasp)
    (hjn : jn.length = 7)
    (_hpre : rec.pre_grasp_joint_angles.length = 8)
    (hfin : rec.final_grasp_joint_angles.length = 8) :
    (∃ p g, adaptPostures "Schunk" jn rec = some (p, g) ∧
      p.length = 7 ∧ g.length = 7 ∧
      p.getD 0 0 = clampQ 0 1.5707 (rec.pre_grasp_joint_angles.getD 0 0) ∧
      g.getD 0 0 = clampQ 0 1.5707 (rec.final_grasp_joint_angles.getD 0 0) ∧
      (∀ k, k < 6 →
        p.getD (k + 1) 0 =
          clampQ (-1.5707) 1.5707
            (rec.pre_grasp_joint_angles.getD (schunkRemap.getD k 0) 0) ∧
        g.getD (k + 1) 0 =
          clampQ (-1.5707) 1.5707
            (rec.final_grasp_joint_angles.getD (schunkRemap.getD k 0) 0))) ∧
    (∀ (env : RosEnv) (req : PlanningRequest) (hand_id : String) (m0 : ModelPose)
        (names : List String) (r : DatabaseGrasp) (rest : List DatabaseGrasp)
        (acc : List Grasp),
      handJointNames env req.arm_name = some names →
      r.final_grasp_joint_angles.length = r.pre_grasp_joint_angles.length →
      adaptPostures hand_id names r = none →
      processRecords env req hand_id m0 (r :: rest) acc =
        processRecords env req hand_id m0 rest acc) := by
  constructor
  · refine ⟨schunkPositions rec.pre_grasp_joint_angles,
      schunkPositions rec.final_grasp_joint_angles, ?_, schunkPositions_length _,
      schunkPositions_length _, ?_, ?_, ?_⟩
    · simp [adaptPostures, hjn, hfin]
    · simp [schunkPositions]
    · simp [schunkPositions]
    · intro k hk
      interval_cases k <;>
        exact ⟨by simp [schunkPositions, schunkRemap], by simp [schunkPositions, schunkRemap]⟩
  · intro env req hand_id m0 names r rest acc hnames hlen hnone
    have hne : ¬ r.final_grasp_joint_angles.length ≠ r.pre_grasp_joint_angles.length :=
      not_ne_iff.mpr hlen
    simp only [processRecords, if_neg hne, hnames, hnone]

/-- C4 witness: the mapping at the spec's concrete Schunk scenario. -/
theorem schunk_adapt_mapping_case :
    ∃ p g, adaptPostures "Schunk" jointNames7 recSchunk = some (p, g) ∧
      p.length = 7 ∧ g.length = 7 ∧
      p.getD 0 0 = clampQ 0 1.5707 (recSchunk.pre_grasp_joint_angles.getD 0 0) ∧
      g.getD 0 0 = clampQ 0 1.5707 (recSchunk.final_grasp_joint_angles.getD 0 0) ∧
      (∀ k, k < 6 →
        p.getD (k + 1) 0 =
          clampQ (-1.5707) 1.5707
            (recSchunk.pre_grasp_joint_angles.getD (schunkRemap.getD k 0) 0) ∧
        g.getD (k + 1) 0 =
          clampQ (-1.5707) 1.5707
            (recSchunk.final_grasp_joint_angles.getD (schunkRemap.getD k 0) 0)) :=
  (schunk_adapt_mapping jointNames7 recSchunk rfl rfl rfl).1

/-- C6: the grasp pose is the detection pose composed (as the outer
transform) with the record's model-local pose; when the frames are
equal the lookup is never consulted and the composed pose is returned
unchanged, otherwise the looked-up transform is applied as the outer
transform; and the loop pushes exactly that composed pose into the
emitted grasp. -/
theorem compose_pose_spec :
    (∀ (lookup : String → String → Option Pose) (det lp : Pose) (f : String),
        composeGraspPose lookup det f f lp = some (multiplyPoses det lp)) ∧
    (∀ (lookup₁ lookup₂ : String → String → Option Pose) (det lp : Pose) (f : String),
        composeGraspPose lookup₁ det f f lp = composeGraspPose lookup₂ det f f lp) ∧
    (∀ (lookup : String → String → Option Pose) (det lp : Pose) (f r : String) (t : Pose),
        f ≠ r → lookup r f = some t →
        composeGraspPose lookup det f r lp =
          some (multiplyPoses t (multiplyPoses det lp))) ∧
    (∀ (lookup : String → String → Option Pose) (det lp : Pose) (f r : String),
        f ≠ r → lookup r f = none → composeGraspPose lookup det f r lp = none) ∧
    (∀ (env : RosEnv) (req : PlanningRequest) (hand_id : String) (m0 : ModelPose)
        (names : List String) (rec : DatabaseGrasp) (rest : List DatabaseGrasp)
        (acc : List Grasp) (pr gp : List ℚ) (pose : Pose),
      handJointNames env req.arm_name = some names →
      rec.final_grasp_joint_angles.length = rec.pre_grasp_joint_angles.length →
      adaptPostures hand_id names rec = some (pr, gp) →
      composeGraspPose env.lookupTransform m0.pose m0.frame_id req.reference_frame_id
          rec.final_grasp_pose = some pose →
      processRecords env req hand_id m0 (rec :: rest) acc =
        processRecords env req hand_id m0 rest
          (acc ++ [buildGrasp names pr gp pose rec.scaled_quality])) := by
  refine ⟨?_, ?_, ?_, ?_, ?_⟩
  · intro lookup det lp f
    simp [composeGraspPose]
  · intro lookup₁ lookup₂ det lp f
    simp [composeGraspPose]
  · intro lookup det lp f r t hfr hl
    simp [composeGraspPose, hfr, hl]
  · intro lookup det lp f r hfr hl
    simp [composeGraspPose, hfr, hl]
  · intro env req hand_id m0 names rec rest acc pr gp pose hnames hlen hadapt hcomp
    have hne : ¬ rec.final_grasp_joint_angles.length ≠ rec.pre_grasp_joint_angles.length :=
      not_ne_iff.mpr hlen
    simp only [processRecords, if_neg hne, hnames, hadapt, hcomp]

/-- C9: the Schunk branch guard checks only the joint-name count and the
final-grasp vector length (exactly 8); under the separately asserted
equality of the two stored vectors' lengths every index the branch
reads (0 and the remap indices) is in bounds for both vectors, but the
guard alone does not bound the pre-grasp vector: a record with an empty
pre-grasp vector still passes it. -/
theorem schunk_guard_bounds :
    (∀ (jn : List String) (rec : DatabaseGrasp),
        (adaptPostures "Schunk" jn rec).isSome ↔
          (jn.length = 7 ∧ rec.final_grasp_joint_angles.length = 8)) ∧
    (∀ (jn : List String) (rec : DatabaseGrasp),
        (adaptPostures "Schunk" jn rec).isSome →
        rec.pre_grasp_joint_angles.length = rec.final_grasp_joint_angles.length →
        ∀ i ∈ (0 : ℕ) :: schunkRemap,
          i < rec.pre_grasp_joint_angles.length ∧
          i < rec.final_grasp_joint_angles.length) ∧
    (∃ (jn : List String) (rec : DatabaseGrasp),
        (adaptPostures "Schunk" jn rec).isSome ∧
        rec.pre_grasp_joint_angles.length = 0) := by
  have hiff : ∀ (jn : List String) (rec : DatabaseGrasp),
      (adaptPostures "Schunk" jn rec).isSome ↔
        (jn.length = 7 ∧ rec.final_grasp_joint_angles.length = 8) := by
    intro jn rec
    by_cases h7 : jn.length = 7 <;>
      by_cases h8 : rec.final_grasp_joint_angles.length = 8 <;>
        simp [adaptPostures, h7, h8]
  refine ⟨hiff, ?_, ?_⟩
  · intro jn rec hsome hlen i hi
    obtain ⟨h7, h8⟩ := (hiff jn rec).mp hsome
    have hp : rec.pre_grasp_joint_angles.length = 8 := by rw [hlen, h8]
    simp only [schunkRemap, List.mem_cons, List.not_mem_nil, or_false] at hi
    rcases hi with rfl | rfl | rfl | rfl | rfl | rfl | rfl <;> simp [hp, h8]
  · exact ⟨jointNames7, ⟨0, 0, [], [0, 0, 0, 0, 0, 0, 0, 0], poseId⟩, by decide, rfl⟩

end ObjectsDatabaseNode
